import Mathlib

/-!
# mo-gfx sample application: frame orchestration

A shallow embedding of `src/src/app.cpp`.  The application talks to an external
graphics backend through `GFX::` calls.  Every function of `App` is embedded as a
function from the application state (the file-level `static` variables) to the new
state together with the list of `GFX::` calls it issued, in order.  Values that come
from outside the program (handles returned by the backend, the decoded image, the
files read, the clock, the events delivered while polling, the result of
`GFX::BeginFrame`) are inputs of the embedded functions.

Floating-point matrices are kept as uninterpreted terms carrying their arguments.
-/

namespace MoGfx

/-! ## Backend vocabulary used by `app.cpp` -/

/-- A backend object handle (the value held in a `GFX::Buffer`, `GFX::Pipeline`, ...). -/
abbrev Handle := Nat

/-- Modelled from the spec: `GFX::Format` is declared in `gfx.h`, which is not among the
sources; the constructors are the values `app.cpp` uses. -/
inductive Format where
  | SWAPCHAIN
  | R16G16B16A16F
  | DEPTH_24UNORM_STENCIL_8INT
  | R8G8B8A8
  deriving DecidableEq, Repr

/-- Modelled from the spec: `GFX::AttachmentType` of `gfx.h`, the values `app.cpp` uses. -/
inductive AttachmentType where
  | Present
  | Color
  | DepthStencil
  deriving DecidableEq, Repr

/-- Modelled from the spec: `GFX::AttachmentLoadAction` of `gfx.h`, the value `app.cpp` uses. -/
inductive AttachmentLoadAction where
  | Clear
  deriving DecidableEq, Repr

/-- Modelled from the spec: `GFX::AttachmentStoreAction` of `gfx.h`, the values `app.cpp` uses. -/
inductive AttachmentStoreAction where
  | Store
  | DontCare
  deriving DecidableEq, Repr

/-- Modelled from the spec: `GFX::AttachmentDescription` of `gfx.h`, with the fields
`app.cpp` assigns.  `storeAction = none` stands for a field left as value-initialised
by `= {}`. -/
structure AttachmentDescription where
  format : Format
  width : Int
  height : Int
  type : AttachmentType
  loadAction : AttachmentLoadAction
  storeAction : Option AttachmentStoreAction
  deriving DecidableEq, Repr

/-- Modelled from the spec: `GFX::PipelineType` of `gfx.h`, the value `app.cpp` uses. -/
inductive PipelineType where
  | Graphics
  deriving DecidableEq, Repr

/-- Modelled from the spec: `GFX::SubPassDescription` of `gfx.h`; the depth/stencil
reference is `none` until `SetDepthStencilAttachment` is called. -/
structure SubPassDescription where
  pipelineType : PipelineType
  colorAttachments : List Nat
  inputAttachments : List Nat
  depthStencilAttachment : Option Nat
  deriving DecidableEq, Repr

/-- Modelled from the spec: `GFX::PipelineStage` of `gfx.h`, the values `app.cpp` uses. -/
inductive PipelineStage where
  | ColorAttachmentOutput
  | FragmentShader
  deriving DecidableEq, Repr

/-- Modelled from the spec: `GFX::Access` of `gfx.h`, the values `app.cpp` uses. -/
inductive Access where
  | ColorAttachmentWrite
  | ShaderRead
  deriving DecidableEq, Repr

/-- Modelled from the spec: `GFX::DependencyDescription` of `gfx.h`. -/
structure DependencyDescription where
  srcSubpass : Nat
  dstSubpass : Nat
  srcStage : PipelineStage
  dstStage : PipelineStage
  srcAccess : Access
  dstAccess : Access
  deriving DecidableEq, Repr

/-- Modelled from the spec: `GFX::RenderPassDescription` of `gfx.h`. -/
structure RenderPassDescription where
  width : Int
  height : Int
  attachments : List AttachmentDescription
  subpasses : List SubPassDescription
  dependencies : List DependencyDescription
  deriving DecidableEq, Repr

/-- Modelled from the spec: `GFX::BufferStorageMode` of `gfx.h`. -/
inductive BufferStorageMode where
  | Static
  | Dynamic
  deriving DecidableEq, Repr

/-- Modelled from the spec: `GFX::BufferUsage` of `gfx.h`. -/
inductive BufferUsage where
  | VertexBuffer
  | IndexBuffer
  | UniformBuffer
  deriving DecidableEq, Repr

/-- Modelled from the spec: `GFX::BufferDescription` of `gfx.h`. -/
structure BufferDescription where
  size : Nat
  storageMode : BufferStorageMode
  usage : BufferUsage
  deriving DecidableEq, Repr

/-- Modelled from the spec: `GFX::ShaderStage` of `gfx.h`. -/
inductive ShaderStage where
  | Vertex
  | Fragment
  deriving DecidableEq, Repr

/-- Modelled from the spec: `GFX::ShaderDescription` of `gfx.h`. -/
structure ShaderDescription where
  name : String
  codes : String
  stage : ShaderStage
  deriving DecidableEq, Repr

/-- Modelled from the spec: `GFX::ValueType` of `gfx.h`, the values `app.cpp` uses. -/
inductive ValueType where
  | Float32x3
  | Float32x2
  deriving DecidableEq, Repr

/-- Modelled from the spec: `GFX::BindingType` of `gfx.h`, the value `app.cpp` uses. -/
inductive BindingType where
  | Vertex
  deriving DecidableEq, Repr

/-- One `AddAttribute(location, offset, type)` entry of a `GFX::VertexBindings`. -/
structure VertexAttribute where
  location : Nat
  offset : Nat
  type : ValueType
  deriving DecidableEq, Repr

/-- Modelled from the spec: `GFX::VertexBindings` of `gfx.h`. -/
structure VertexBindings where
  attributes : List VertexAttribute
  strideSize : Nat
  bindingType : BindingType
  bindingPosition : Nat
  deriving DecidableEq, Repr

/-- Modelled from the spec: `GFX::UniformType` of `gfx.h`. -/
inductive UniformType where
  | UniformBuffer
  | SampledImage
  | InputAttachment
  deriving DecidableEq, Repr

/-- One `AddUniformBinding(binding, type, stage, count)` entry. -/
structure UniformBinding where
  binding : Nat
  type : UniformType
  stage : ShaderStage
  count : Nat
  deriving DecidableEq, Repr

/-- Modelled from the spec: `GFX::UniformLayoutDescription` of `gfx.h`. -/
structure UniformLayoutDescription where
  bindings : List UniformBinding
  deriving DecidableEq, Repr

/-- Modelled from the spec: `GFX::UniformBindings` of `gfx.h`: the layouts added with
`AddUniformLayout`. -/
structure UniformBindings where
  layouts : List Handle
  deriving DecidableEq, Repr

/-- Modelled from the spec: `GFX::PrimitiveTopology` of `gfx.h`, the value `app.cpp` uses. -/
inductive PrimitiveTopology where
  | TriangleList
  deriving DecidableEq, Repr

/-- Modelled from the spec: `GFX::GraphicsPipelineDescription` of `gfx.h`; `vertexBindings`
is `none` when the field is left as value-initialised by `= {}`. -/
structure GraphicsPipelineDescription where
  primitiveTopology : PrimitiveTopology
  shaders : List Handle
  vertexBindings : Option VertexBindings
  uniformBindings : UniformBindings
  renderPass : Handle
  enableDepthTest : Bool
  subpass : Nat
  deriving DecidableEq, Repr

/-- Modelled from the spec: `GFX::FilterMode` of `gfx.h`, the value `app.cpp` uses. -/
inductive FilterMode where
  | Linear
  deriving DecidableEq, Repr

/-- Modelled from the spec: `GFX::WrapMode` of `gfx.h`, the value `app.cpp` uses. -/
inductive WrapMode where
  | ClampToEdge
  deriving DecidableEq, Repr

/-- Modelled from the spec: `GFX::SamplerDescription` of `gfx.h`. -/
structure SamplerDescription where
  minFilter : FilterMode
  magFilter : FilterMode
  wrapU : WrapMode
  wrapV : WrapMode
  deriving DecidableEq, Repr

/-- Modelled from the spec: `GFX::ImageUsage` of `gfx.h`, the value `app.cpp` uses. -/
inductive ImageUsage where
  | SampledImage
  deriving DecidableEq, Repr

/-- Modelled from the spec: `GFX::ImageType` of `gfx.h`, the value `app.cpp` uses. -/
inductive ImageType where
  | Image2D
  deriving DecidableEq, Repr

/-- Modelled from the spec: `GFX::ImageSampleCount` of `gfx.h`, the value `app.cpp` uses. -/
inductive ImageSampleCount where
  | Sample1
  deriving DecidableEq, Repr

/-- Modelled from the spec: `GFX::ImageDescription` of `gfx.h`. -/
structure ImageDescription where
  format : Format
  width : Int
  height : Int
  depth : Nat
  readOrWriteByCPU : Bool
  usage : ImageUsage
  type : ImageType
  sampleCount : ImageSampleCount
  deriving DecidableEq, Repr

/-- Modelled from the spec: `GFX::UniformStorageMode` of `gfx.h`, the value `app.cpp` uses. -/
inductive UniformStorageMode where
  | Dynamic
  deriving DecidableEq, Repr

/-- One attribute entry of a `GFX::UniformDescription`: `AddBufferAttribute`,
`AddImageAttribute` or `AddSampledAttachmentAttribute`. -/
inductive UniformAttribute where
  | Buffer (binding : Nat) (buffer : Handle) (offset : Nat) (size : Nat)
  | Image (binding : Nat) (image : Handle) (sampler : Handle)
  | SampledAttachment (binding : Nat) (renderPass : Handle) (attachmentIndex : Nat)
      (sampler : Handle)
  deriving DecidableEq, Repr

/-- Modelled from the spec: `GFX::UniformDescription` of `gfx.h`. -/
structure UniformDescription where
  layout : Handle
  storageMode : UniformStorageMode
  attributes : List UniformAttribute
  deriving DecidableEq, Repr

/-- Modelled from the spec: `GFX::IndexType` of `gfx.h`, the value `app.cpp` uses. -/
inductive IndexType where
  | UInt16
  deriving DecidableEq, Repr

/-! ## Scene data (`app.cpp` lines 39-67) -/

/-- The `Vertex` struct: position, colour, texture coordinate.  The float literals of
the source are all exactly representable and kept as rationals. -/
structure Vertex where
  pos : Rat × Rat × Rat
  color : Rat × Rat × Rat
  texCoord : Rat × Rat
  deriving DecidableEq, Repr

/-- The `vertices` table. -/
def vertices : List Vertex :=
  [ { pos := (-1/2, -1/2, 0), color := (1, 0, 0), texCoord := (0, 0) },
    { pos := (1/2, -1/2, 0), color := (0, 1, 0), texCoord := (1, 0) },
    { pos := (1/2, 1/2, 0), color := (0, 0, 1), texCoord := (1, 1) },
    { pos := (-1/2, 1/2, 0), color := (1, 1, 1), texCoord := (0, 1) },
    { pos := (-1/2, -1/2, -1/2), color := (1, 0, 0), texCoord := (0, 0) },
    { pos := (1/2, -1/2, -1/2), color := (0, 1, 0), texCoord := (1, 0) },
    { pos := (1/2, 1/2, -1/2), color := (0, 0, 1), texCoord := (1, 1) },
    { pos := (-1/2, 1/2, -1/2), color := (1, 1, 1), texCoord := (0, 1) } ]

/-- The `indices` table (`uint16_t`). -/
def indices : List Nat :=
  [0, 1, 2, 2, 3, 0,
   4, 5, 6, 6, 7, 4]

/-- The value of `sizeof(float)`. -/
def sizeofFloat : Nat := 4

/-- The value of `sizeof(glm::mat4)`: sixteen floats. -/
def sizeofMat4 : Nat := 16 * sizeofFloat

/-- The value of `sizeof(UniformBufferObject)`: the three matrices `model`, `view`, `proj`. -/
def sizeofUniformBufferObject : Nat := 3 * sizeofMat4

/-- The value of `sizeof(Vertex)`: 3 + 3 + 2 floats. -/
def sizeofVertex : Nat := (3 + 3 + 2) * sizeofFloat

/-- The value of `sizeof(uint16_t)`. -/
def sizeofUInt16 : Nat := 2

/-- A reading of the clock, `(float)glfwGetTime()`. -/
abbrev Time := Rat

/-- The three matrices written by `MainLoop`, kept as uninterpreted terms: each
constructor records the call that produces the matrix and the arguments that vary. -/
inductive Mat4 where
  /-- The call `glm::rotate(glm::mat4(1.0f), time * glm::radians(90.0f), vec3(0,0,1))`. -/
  | rotate (time : Time)
  /-- The call `glm::lookAt(vec3(2,2,2), vec3(0,0,0), vec3(0,0,1))`. -/
  | lookAt
  /-- The call `glm::perspective(glm::radians(45.0f), (float)w/(float)h, 0.1f, 10.0f)`. -/
  | perspective (w : Int) (h : Int)
  deriving DecidableEq, Repr

/-- The `UniformBufferObject` struct. -/
structure UniformBufferObject where
  model : Mat4
  view : Mat4
  proj : Mat4
  deriving DecidableEq, Repr

/-- The data behind the `void*` given to `GFX::UpdateUniformBuffer`. -/
inductive UniformData where
  | ubo (u : UniformBufferObject)
  | time (t : Time)
  deriving DecidableEq, Repr

/-- The data behind the `void*` given to `GFX::UpdateBuffer`. -/
inductive BufferData where
  | vertexData (v : List Vertex)
  | indexData (i : List Nat)
  deriving DecidableEq, Repr

/-! ## The calls issued to the backend -/

/-- A call of a `GFX::` function, with its arguments; a create call also records the
handle the backend returned, and `BeginFrame` the boolean it returned. -/
inductive Cmd where
  | Init (debugMode : Bool)
  | CreateBuffer (d : BufferDescription) (ret : Handle)
  | UpdateBuffer (buffer : Handle) (offset : Nat) (size : Nat) (data : BufferData)
  | CreateShader (d : ShaderDescription) (ret : Handle)
  | CreateUniformLayout (d : UniformLayoutDescription) (ret : Handle)
  | CreateRenderPass (d : RenderPassDescription) (ret : Handle)
  | CreatePipeline (d : GraphicsPipelineDescription) (ret : Handle)
  | CreateImage (d : ImageDescription) (ret : Handle)
  | UpdateImageMemory (image : Handle) (pixels : Option (List Nat)) (size : Nat)
  | CreateSampler (d : SamplerDescription) (ret : Handle)
  | CreateUniform (d : UniformDescription) (ret : Handle)
  | Resize (width : Int) (height : Int)
  | ResizeRenderPass (renderPass : Handle) (width : Int) (height : Int)
  | BeginFrame (ret : Bool)
  | BeginRenderPass (renderPass : Handle) (x : Int) (y : Int) (width : Int) (height : Int)
  | ApplyPipeline (pipeline : Handle)
  | UpdateUniformBuffer (uniform : Handle) (binding : Nat) (data : UniformData)
  | BindIndexBuffer (buffer : Handle) (offset : Nat) (type : IndexType)
  | BindVertexBuffer (buffer : Handle) (binding : Nat)
  | BindUniform (uniform : Handle) (slot : Nat)
  | SetViewport (x : Int) (y : Int) (width : Int) (height : Int)
  | SetScissor (x : Int) (y : Int) (width : Int) (height : Int)
  | DrawIndexed (indexCount : Nat) (instanceCount : Nat) (firstIndex : Nat)
  | NextRenderPass
  | Draw (vertexCount : Nat) (instanceCount : Nat) (firstVertex : Nat) (firstInstance : Nat)
  | EndRenderPass
  | EndFrame
  | DestroyRenderPass (h : Handle)
  | DestroySampler (h : Handle)
  | DestroyImage (h : Handle)
  | DestroyUniform (h : Handle)
  | DestroyUniformLayout (h : Handle)
  | DestroyBuffer (h : Handle)
  | DestroyPipeline (h : Handle)
  | DestroyShader (h : Handle)
  | Shutdown
  deriving DecidableEq, Repr

/-! ## Application state and external inputs -/

/-- The file-level `static` variables of `app.cpp`. -/
structure AppState where
  s_width : Int
  s_height : Int
  vertShader : Handle
  fragShader : Handle
  screenVertShader : Handle
  screenFragShader : Handle
  pipeline : Handle
  vertexBuffer : Handle
  indexBuffer : Handle
  uniformBuffer : Handle
  uniformLayout : Handle
  uniform : Handle
  image : Handle
  sampler : Handle
  renderPass : Handle
  screenQuadUniformLayout : Handle
  screenQuadUniform : Handle
  screenQuadPipeline : Handle
  deriving DecidableEq, Repr

/-- The constant `WIDTH`. -/
def WIDTH : Int := 800

/-- The constant `HEIGHT`. -/
def HEIGHT : Int := 600

/-- The statics as initialised at program start: `s_width = WIDTH`,
`s_height = HEIGHT`, every handle default-constructed. -/
def AppState.start : AppState :=
  { s_width := WIDTH, s_height := HEIGHT,
    vertShader := 0, fragShader := 0, screenVertShader := 0, screenFragShader := 0,
    pipeline := 0, vertexBuffer := 0, indexBuffer := 0, uniformBuffer := 0,
    uniformLayout := 0, uniform := 0, image := 0, sampler := 0, renderPass := 0,
    screenQuadUniformLayout := 0, screenQuadUniform := 0, screenQuadPipeline := 0 }

/-- What `stbi_load` leaves behind: the returned pointer (`none` for a null pointer) and
the values found in `texWidth`, `texHeight`, `texChannels` after the call. -/
structure DecodeResult where
  pixels : Option (List Nat)
  texWidth : Int
  texHeight : Int
  texChannels : Int
  deriving DecidableEq, Repr

/-- Everything `Init` obtains from outside the program: the handle returned by each
backend create call (named after the static it is stored in), the backend's uniform
offset alignment, the text of the files read and the result of decoding the texture. -/
structure InitEnv where
  alignment : Nat
  readFile : String → String
  decode : DecodeResult
  vertexBuffer : Handle
  indexBuffer : Handle
  uniformBuffer : Handle
  vertShader : Handle
  fragShader : Handle
  uniformLayout : Handle
  renderPass : Handle
  pipeline : Handle
  screenVertShader : Handle
  screenFragShader : Handle
  screenQuadUniformLayout : Handle
  screenQuadPipeline : Handle
  image : Handle
  sampler : Handle
  uniform : Handle
  screenQuadUniform : Handle

/-- A framebuffer-size event delivered by `glfwPollEvents`, together with the handle
the backend returns for the `CreateUniform` call made while handling it. -/
structure ResizeEvent where
  width : Int
  height : Int
  newUniform : Handle
  deriving DecidableEq, Repr

/-- The outside world during one pass through the body of the `while` loop: the resize
events delivered by `glfwPollEvents`, the result of `GFX::BeginFrame` and the clock. -/
structure Iteration where
  events : List ResizeEvent
  beginFrame : Bool
  time : Time
  deriving DecidableEq, Repr

/-! ## The functions of `app.cpp` -/

/-- Modelled from the spec: `GFX::UniformAlign` belongs to the backend and is not among
the sources.  With `a` the backend's minimum uniform-offset alignment, it rounds `n` up
to the next multiple of `a`. -/
def UniformAlign (a n : Nat) : Nat :=
  (n + a - 1) / a * a

/-- Conversion of an `int` to `size_t` (64 bits). -/
def toSizeT (i : Int) : Nat :=
  (i % 2 ^ 64).toNat

/-- Multiplication in `size_t`. -/
def mulSizeT (a b : Nat) : Nat :=
  (a * b) % 2 ^ 64

/-- The `screenQuadUniformDesc` built in `framebufferResizeCallback` (lines 89-92) and
again at the end of `Init` (lines 243-246). -/
def screenQuadUniformDesc (s : AppState) : UniformDescription :=
  { layout := s.screenQuadUniformLayout,
    storageMode := UniformStorageMode.Dynamic,
    attributes := [UniformAttribute.SampledAttachment 0 s.renderPass 1 s.sampler] }

/-- The function `framebufferResizeCallback` (lines 78-95). -/
def framebufferResizeCallback (ev : ResizeEvent) (s : AppState) : AppState × List Cmd :=
  let s1 := { s with s_width := ev.width, s_height := ev.height }
  let screenQuadUniformDesc := screenQuadUniformDesc s1
  ({ s1 with screenQuadUniform := ev.newUniform },
   [ Cmd.Resize ev.width ev.height,
     Cmd.ResizeRenderPass s1.renderPass ev.width ev.height,
     Cmd.DestroyUniform s1.screenQuadUniform,
     Cmd.CreateUniform screenQuadUniformDesc ev.newUniform ])

/-- The `renderPassDescription` built by `App::CreateRenderPass` (lines 254-310). -/
def renderPassDescription (s : AppState) : RenderPassDescription :=
  let swapChainAttachment : AttachmentDescription :=
    { format := Format.SWAPCHAIN, width := s.s_width, height := s.s_height,
      type := AttachmentType.Present, loadAction := AttachmentLoadAction.Clear,
      storeAction := some AttachmentStoreAction.Store }
  let hdrAttachment : AttachmentDescription :=
    { format := Format.R16G16B16A16F, width := s.s_width, height := s.s_height,
      type := AttachmentType.Color, loadAction := AttachmentLoadAction.Clear,
      storeAction := some AttachmentStoreAction.DontCare }
  let depthAttachment : AttachmentDescription :=
    { format := Format.DEPTH_24UNORM_STENCIL_8INT, width := s.s_width, height := s.s_height,
      type := AttachmentType.DepthStencil, loadAction := AttachmentLoadAction.Clear,
      storeAction := none }
  let subPassHdr : SubPassDescription :=
    { pipelineType := PipelineType.Graphics, colorAttachments := [1],
      inputAttachments := [], depthStencilAttachment := some 2 }
  let subPassSwapChain : SubPassDescription :=
    { pipelineType := PipelineType.Graphics, colorAttachments := [0],
      inputAttachments := [1], depthStencilAttachment := some 2 }
  let dependencyDesc : DependencyDescription :=
    { srcSubpass := 0, dstSubpass := 1,
      srcStage := PipelineStage.ColorAttachmentOutput,
      dstStage := PipelineStage.FragmentShader,
      srcAccess := Access.ColorAttachmentWrite,
      dstAccess := Access.ShaderRead }
  { width := s.s_width, height := s.s_height,
    attachments := [swapChainAttachment, hdrAttachment, depthAttachment],
    subpasses := [subPassHdr, subPassSwapChain],
    dependencies := [dependencyDesc] }

/-- The method `App::CreateRenderPass` (lines 251-313); `ret` is the handle returned by
`GFX::CreateRenderPass`. -/
def CreateRenderPass (ret : Handle) (s : AppState) : AppState × List Cmd :=
  ({ s with renderPass := ret }, [Cmd.CreateRenderPass (renderPassDescription s) ret])

/-- The `imageDescription` built by `App::LoadTexture` (lines 320-328). -/
def imageDescription (d : DecodeResult) : ImageDescription :=
  { format := Format.R8G8B8A8, width := d.texWidth, height := d.texHeight, depth := 1,
    readOrWriteByCPU := false, usage := ImageUsage.SampledImage,
    type := ImageType.Image2D, sampleCount := ImageSampleCount.Sample1 }

/-- The method `App::LoadTexture` (lines 315-334); `d` is what `stbi_load` produced and
`ret` the handle returned by `GFX::CreateImage`.  The pointer `pixels` is passed on as
it is; the code has no branch on it. -/
def LoadTexture (d : DecodeResult) (ret : Handle) (s : AppState) : AppState × List Cmd :=
  let s1 := { s with image := ret }
  (s1,
   [ Cmd.CreateImage (imageDescription d) ret,
     Cmd.UpdateImageMemory s1.image d.pixels
       (mulSizeT (mulSizeT (mulSizeT 1 (toSizeT d.texWidth)) (toSizeT d.texHeight)) 4) ])

/-- The `vertexBufferDescription` of `Init` (lines 114-117). -/
def vertexBufferDescription : BufferDescription :=
  { size := sizeofVertex * vertices.length, storageMode := BufferStorageMode.Static,
    usage := BufferUsage.VertexBuffer }

/-- The `indexBufferDescription` of `Init` (lines 122-125). -/
def indexBufferDescription : BufferDescription :=
  { size := sizeofUInt16 * indices.length, storageMode := BufferStorageMode.Static,
    usage := BufferUsage.IndexBuffer }

/-- The `uniformBufferDescription` of `Init` (lines 130-133), for backend alignment `a`. -/
def uniformBufferDescription (a : Nat) : BufferDescription :=
  { size := UniformAlign a sizeofUniformBufferObject + UniformAlign a sizeofFloat,
    storageMode := BufferStorageMode.Dynamic, usage := BufferUsage.UniformBuffer }

/-- The `vertexBindings` of `Init` (lines 150-156); the offsets are `offsetof(Vertex, _)`. -/
def vertexBindings : VertexBindings :=
  { attributes :=
      [ { location := 0, offset := 0, type := ValueType.Float32x3 },
        { location := 1, offset := 3 * sizeofFloat, type := ValueType.Float32x3 },
        { location := 2, offset := 6 * sizeofFloat, type := ValueType.Float32x2 } ],
    strideSize := sizeofVertex, bindingType := BindingType.Vertex, bindingPosition := 0 }

/-- The `uniformLayoutDesc` of `Init` (lines 158-161). -/
def uniformLayoutDesc : UniformLayoutDescription :=
  { bindings :=
      [ { binding := 0, type := UniformType.UniformBuffer, stage := ShaderStage.Vertex, count := 1 },
        { binding := 1, type := UniformType.UniformBuffer, stage := ShaderStage.Vertex, count := 1 },
        { binding := 2, type := UniformType.SampledImage, stage := ShaderStage.Fragment, count := 1 } ] }

/-- The `screenQuadUniformLayoutDesc` of `Init` (lines 195-200). -/
def screenQuadUniformLayoutDesc : UniformLayoutDescription :=
  { bindings :=
      [ { binding := 0, type := UniformType.SampledImage, stage := ShaderStage.Fragment, count := 1 } ] }

/-- The `pipelineDesc` of `Init` (lines 170-178). -/
def pipelineDesc (s : AppState) : GraphicsPipelineDescription :=
  { primitiveTopology := PrimitiveTopology.TriangleList,
    shaders := [s.vertShader, s.fragShader],
    vertexBindings := some vertexBindings,
    uniformBindings := { layouts := [s.uniformLayout] },
    renderPass := s.renderPass,
    enableDepthTest := true,
    subpass := 0 }

/-- The `screenQuadPipelineDesc` of `Init` (lines 207-214). -/
def screenQuadPipelineDesc (s : AppState) : GraphicsPipelineDescription :=
  { primitiveTopology := PrimitiveTopology.TriangleList,
    shaders := [s.screenVertShader, s.screenFragShader],
    vertexBindings := none,
    uniformBindings := { layouts := [s.screenQuadUniformLayout] },
    renderPass := s.renderPass,
    enableDepthTest := false,
    subpass := 1 }

/-- The `samplerDesc` of `Init` (lines 220-224). -/
def samplerDesc : SamplerDescription :=
  { minFilter := FilterMode.Linear, magFilter := FilterMode.Linear,
    wrapU := WrapMode.ClampToEdge, wrapV := WrapMode.ClampToEdge }

/-- The `uniformDesc` of `Init` (lines 228-239), for backend alignment `a`. -/
def uniformDesc (a : Nat) (s : AppState) : UniformDescription :=
  { layout := s.uniformLayout,
    storageMode := UniformStorageMode.Dynamic,
    attributes :=
      [ UniformAttribute.Buffer 0 s.uniformBuffer 0 sizeofUniformBufferObject,
        UniformAttribute.Buffer 1 s.uniformBuffer (UniformAlign a sizeofUniformBufferObject)
          sizeofFloat,
        UniformAttribute.Image 2 s.image s.sampler ] }

/-- The method `App::Init` (lines 97-249): the `GFX::` calls in source order, each create
call storing the handle the backend returned in the corresponding static. -/
def Init (e : InitEnv) (s0 : AppState) : AppState × List Cmd :=
  let t0 := [Cmd.Init true]
  let s1 := { s0 with vertexBuffer := e.vertexBuffer }
  let t1 := [ Cmd.CreateBuffer vertexBufferDescription e.vertexBuffer,
              Cmd.UpdateBuffer s1.vertexBuffer 0 vertexBufferDescription.size
                (BufferData.vertexData vertices) ]
  let s2 := { s1 with indexBuffer := e.indexBuffer }
  let t2 := [ Cmd.CreateBuffer indexBufferDescription e.indexBuffer,
              Cmd.UpdateBuffer s2.indexBuffer 0 indexBufferDescription.size
                (BufferData.indexData indices) ]
  let s3 := { s2 with uniformBuffer := e.uniformBuffer }
  let t3 := [Cmd.CreateBuffer (uniformBufferDescription e.alignment) e.uniformBuffer]
  let vertDesc : ShaderDescription :=
    { name := "default", codes := e.readFile "default.vert", stage := ShaderStage.Vertex }
  let fragDesc : ShaderDescription :=
    { name := "default", codes := e.readFile "default.frag", stage := ShaderStage.Fragment }
  let s4 := { s3 with vertShader := e.vertShader, fragShader := e.fragShader }
  let t4 := [Cmd.CreateShader vertDesc e.vertShader, Cmd.CreateShader fragDesc e.fragShader]
  let s5 := { s4 with uniformLayout := e.uniformLayout }
  let t5 := [Cmd.CreateUniformLayout uniformLayoutDesc e.uniformLayout]
  let r6 := CreateRenderPass e.renderPass s5
  let s6 := r6.1
  let s7 := { s6 with pipeline := e.pipeline }
  let t7 := [Cmd.CreatePipeline (pipelineDesc s6) e.pipeline]
  let screenQuadVertDesc : ShaderDescription :=
    { name := "default", codes := e.readFile "screen_quad.vert", stage := ShaderStage.Vertex }
  let screenQuadFragDesc : ShaderDescription :=
    { name := "default", codes := e.readFile "screen_quad_test.frag",
      stage := ShaderStage.Fragment }
  let s8 := { s7 with screenVertShader := e.screenVertShader,
                      screenFragShader := e.screenFragShader }
  let t8 := [ Cmd.CreateShader screenQuadVertDesc e.screenVertShader,
              Cmd.CreateShader screenQuadFragDesc e.screenFragShader ]
  let s9 := { s8 with screenQuadUniformLayout := e.screenQuadUniformLayout }
  let t9 := [Cmd.CreateUniformLayout screenQuadUniformLayoutDesc e.screenQuadUniformLayout]
  let s10 := { s9 with screenQuadPipeline := e.screenQuadPipeline }
  let t10 := [Cmd.CreatePipeline (screenQuadPipelineDesc s9) e.screenQuadPipeline]
  let r11 := LoadTexture e.decode e.image s10
  let s11 := r11.1
  let s12 := { s11 with sampler := e.sampler }
  let t12 := [Cmd.CreateSampler samplerDesc e.sampler]
  let s13 := { s12 with uniform := e.uniform }
  let t13 := [Cmd.CreateUniform (uniformDesc e.alignment s12) e.uniform]
  let s14 := { s13 with screenQuadUniform := e.screenQuadUniform }
  let t14 := [Cmd.CreateUniform (screenQuadUniformDesc s13) e.screenQuadUniform]
  (s14, t0 ++ t1 ++ t2 ++ t3 ++ t4 ++ t5 ++ r6.2 ++ t7 ++ t8 ++ t9 ++ t10 ++ r11.2
        ++ t12 ++ t13 ++ t14)

/-- The `ubo` filled in by `MainLoop` (lines 349-352). -/
def frameUbo (time : Time) (s : AppState) : UniformBufferObject :=
  { model := Mat4.rotate time, view := Mat4.lookAt,
    proj := Mat4.perspective s.s_width s.s_height }

/-- The block guarded by `if (GFX::BeginFrame())` in `MainLoop` (lines 344-374). -/
def frameCommands (time : Time) (s : AppState) : List Cmd :=
  [ Cmd.BeginRenderPass s.renderPass 0 0 s.s_width s.s_height,
    Cmd.ApplyPipeline s.pipeline,
    Cmd.UpdateUniformBuffer s.uniform 0 (UniformData.ubo (frameUbo time s)),
    Cmd.UpdateUniformBuffer s.uniform 1 (UniformData.time time),
    Cmd.BindIndexBuffer s.indexBuffer 0 IndexType.UInt16,
    Cmd.BindVertexBuffer s.vertexBuffer 0,
    Cmd.BindUniform s.uniform 0,
    Cmd.SetViewport 0 0 s.s_width s.s_height,
    Cmd.SetScissor 0 0 s.s_width s.s_height,
    Cmd.DrawIndexed indices.length 1 0,
    Cmd.NextRenderPass,
    Cmd.ApplyPipeline s.screenQuadPipeline,
    Cmd.BindUniform s.screenQuadUniform 0,
    Cmd.Draw 3 1 0 0,
    Cmd.EndRenderPass,
    Cmd.EndFrame ]

/-- The call `glfwPollEvents()`: the only registered callback is
`framebufferResizeCallback`, run once per delivered event, in order. -/
def pollEvents : List ResizeEvent → AppState → AppState × List Cmd
  | [], s => (s, [])
  | ev :: rest, s =>
    let r := framebufferResizeCallback ev s
    let r2 := pollEvents rest r.1
    (r2.1, r.2 ++ r2.2)

/-- One pass through the body of the `while` loop of `MainLoop` (lines 340-375). -/
def loopBody (it : Iteration) (s : AppState) : AppState × List Cmd :=
  let p := pollEvents it.events s
  if it.beginFrame then
    (p.1, p.2 ++ Cmd.BeginFrame true :: frameCommands it.time p.1)
  else
    (p.1, p.2 ++ [Cmd.BeginFrame false])

/-- The method `App::MainLoop` (lines 336-377): `its` lists the passes through the loop
body made before `glfwWindowShouldClose` reports true. -/
def MainLoop : List Iteration → AppState → AppState × List Cmd
  | [], s => (s, [])
  | it :: rest, s =>
    let r := loopBody it s
    let r2 := MainLoop rest r.1
    (r2.1, r.2 ++ r2.2)

/-- The method `App::CleanUp` (lines 379-410). -/
def CleanUp (s : AppState) : List Cmd :=
  [ Cmd.DestroyRenderPass s.renderPass,
    Cmd.DestroySampler s.sampler,
    Cmd.DestroyImage s.image,
    Cmd.DestroyUniform s.uniform,
    Cmd.DestroyUniformLayout s.uniformLayout,
    Cmd.DestroyUniform s.screenQuadUniform,
    Cmd.DestroyUniformLayout s.screenQuadUniformLayout,
    Cmd.DestroyBuffer s.vertexBuffer,
    Cmd.DestroyBuffer s.indexBuffer,
    Cmd.DestroyBuffer s.uniformBuffer,
    Cmd.DestroyPipeline s.pipeline,
    Cmd.DestroyShader s.vertShader,
    Cmd.DestroyShader s.fragShader,
    Cmd.DestroyPipeline s.screenQuadPipeline,
    Cmd.DestroyShader s.screenVertShader,
    Cmd.DestroyShader s.screenFragShader,
    Cmd.Shutdown ]

/-- The method `App::Run` (lines 69-76): `Init`, then `MainLoop`, then `CleanUp`. -/
def Run (e : InitEnv) (its : List Iteration) : AppState × List Cmd :=
  let i := Init e AppState.start
  let m := MainLoop its i.1
  (m.1, i.2 ++ m.2 ++ CleanUp m.1)

/-! ## Observations on a recorded call sequence -/

/-- Whether a call is a draw call (`Draw` or `DrawIndexed`). -/
def Cmd.isDraw : Cmd → Bool
  | Cmd.DrawIndexed _ _ _ => true
  | Cmd.Draw _ _ _ _ => true
  | _ => false

/-- Whether a call is `NextRenderPass`. -/
def Cmd.isNextRenderPass : Cmd → Bool
  | Cmd.NextRenderPass => true
  | _ => false

/-- Whether a call is `UpdateUniformBuffer`. -/
def Cmd.isUniformUpdate : Cmd → Bool
  | Cmd.UpdateUniformBuffer _ _ _ => true
  | _ => false

/-- The calls recorded before the first `NextRenderPass`: those of subpass 0. -/
def beforeNextRenderPass (t : List Cmd) : List Cmd :=
  t.takeWhile (fun c => !c.isNextRenderPass)

/-- The calls recorded after the first `NextRenderPass`: those of subpass 1. -/
def afterNextRenderPass (t : List Cmd) : List Cmd :=
  (t.dropWhile (fun c => !c.isNextRenderPass)).drop 1

/-- The calls recorded before the first draw call. -/
def beforeFirstDraw (t : List Cmd) : List Cmd :=
  t.takeWhile (fun c => !c.isDraw)

/-- Whether a call belongs to the recording of a frame: render-pass begin/advance/end,
pipeline, bind, uniform update, viewport/scissor, draw, end of frame. -/
def Cmd.isFrameWork : Cmd → Bool
  | Cmd.BeginRenderPass _ _ _ _ _ => true
  | Cmd.ApplyPipeline _ => true
  | Cmd.UpdateUniformBuffer _ _ _ => true
  | Cmd.BindIndexBuffer _ _ _ => true
  | Cmd.BindVertexBuffer _ _ => true
  | Cmd.BindUniform _ _ => true
  | Cmd.SetViewport _ _ _ _ => true
  | Cmd.SetScissor _ _ _ _ => true
  | Cmd.DrawIndexed _ _ _ => true
  | Cmd.NextRenderPass => true
  | Cmd.Draw _ _ _ _ => true
  | Cmd.EndRenderPass => true
  | Cmd.EndFrame => true
  | _ => false

/-- The binding-set handles that denote a live binding set after the calls `t`, starting
from the live handles `live`: `DestroyUniform` retires a handle, `CreateUniform` makes
the returned handle live. -/
def liveUniforms : List Cmd → List Handle → List Handle
  | [], live => live
  | Cmd.CreateUniform _ h :: t, live => liveUniforms t (h :: live)
  | Cmd.DestroyUniform h :: t, live => liveUniforms t (live.filter (fun x => x ≠ h))
  | _ :: t, live => liveUniforms t live

/-- The kinds of backend object `app.cpp` creates. -/
inductive ResKind where
  | RenderPass
  | Image
  | Sampler
  | Buffer
  | UniformLayout
  | Shader
  | Uniform
  | Pipeline
  deriving DecidableEq, Repr

/-- A backend object: its kind and its handle. -/
structure Res where
  kind : ResKind
  handle : Handle
  deriving DecidableEq, Repr

/-- The objects an attribute of a binding-set description refers to. -/
def UniformAttribute.refs : UniformAttribute → List Res
  | UniformAttribute.Buffer _ b _ _ => [⟨ResKind.Buffer, b⟩]
  | UniformAttribute.Image _ i sm => [⟨ResKind.Image, i⟩, ⟨ResKind.Sampler, sm⟩]
  | UniformAttribute.SampledAttachment _ rp _ sm =>
    [⟨ResKind.RenderPass, rp⟩, ⟨ResKind.Sampler, sm⟩]

/-- The objects a list of attributes refers to. -/
def attributeRefs : List UniformAttribute → List Res
  | [] => []
  | a :: t => a.refs ++ attributeRefs t

/-- The objects a binding-set description refers to: its layout and what its attributes
name. -/
def UniformDescription.refs (d : UniformDescription) : List Res :=
  ⟨ResKind.UniformLayout, d.layout⟩ :: attributeRefs d.attributes

/-- The objects a pipeline description refers to: render pass, shaders, layouts. -/
def GraphicsPipelineDescription.refs (d : GraphicsPipelineDescription) : List Res :=
  ⟨ResKind.RenderPass, d.renderPass⟩ ::
    (d.shaders.map (fun h => (⟨ResKind.Shader, h⟩ : Res)) ++
     d.uniformBindings.layouts.map (fun h => (⟨ResKind.UniformLayout, h⟩ : Res)))

/-- The binding set or pipeline a call creates, with the objects it refers to. -/
def Cmd.creates : Cmd → Option (Res × List Res)
  | Cmd.CreateUniform d h => some (⟨ResKind.Uniform, h⟩, d.refs)
  | Cmd.CreatePipeline d h => some (⟨ResKind.Pipeline, h⟩, d.refs)
  | _ => none

/-- The object a destroy call targets. -/
def Cmd.destroys : Cmd → Option Res
  | Cmd.DestroyRenderPass h => some ⟨ResKind.RenderPass, h⟩
  | Cmd.DestroySampler h => some ⟨ResKind.Sampler, h⟩
  | Cmd.DestroyImage h => some ⟨ResKind.Image, h⟩
  | Cmd.DestroyUniform h => some ⟨ResKind.Uniform, h⟩
  | Cmd.DestroyUniformLayout h => some ⟨ResKind.UniformLayout, h⟩
  | Cmd.DestroyBuffer h => some ⟨ResKind.Buffer, h⟩
  | Cmd.DestroyPipeline h => some ⟨ResKind.Pipeline, h⟩
  | Cmd.DestroyShader h => some ⟨ResKind.Shader, h⟩
  | _ => none

/-- Whether a kind is that of a referencing object: binding set or pipeline. -/
def ResKind.isHolder : ResKind → Bool
  | ResKind.Uniform => true
  | ResKind.Pipeline => true
  | _ => false

/-- Whether one of the live binding sets or pipelines refers to `r`. -/
def referencedBy (live : List (Res × List Res)) (r : Res) : Bool :=
  live.any (fun o => o.2.contains r)

/-- The live binding sets and pipelines after one call. -/
def liveStep (live : List (Res × List Res)) (c : Cmd) : List (Res × List Res) :=
  match c.creates with
  | some o => o :: live
  | none =>
    match c.destroys with
    | some r => if r.kind.isHolder then live.filter (fun o => o.1 ≠ r) else live
    | none => live

/-- The live binding sets and pipelines after the calls `t`. -/
def liveAfter : List (Res × List Res) → List Cmd → List (Res × List Res)
  | live, [] => live
  | live, c :: t => liveAfter (liveStep live c) t

/-- The target of the call `c` when `c` destroys a render pass, image, sampler, buffer,
layout or shader that one of the live binding sets or pipelines refers to. -/
def danglingAt (live : List (Res × List Res)) (c : Cmd) : List Res :=
  match c.destroys with
  | some r => if !r.kind.isHolder && referencedBy live r then [r] else []
  | none => []

/-- Replays the calls `t` from the live binding sets and pipelines `live` and lists, in
order, the targets of the destroy calls (of a render pass, image, sampler, buffer, layout
or shader) issued while a binding set or pipeline not yet destroyed refers to the target. -/
def danglingDestroys : List (Res × List Res) → List Cmd → List Res
  | _, [] => []
  | live, c :: t => danglingAt live c ++ danglingDestroys (liveStep live c) t

/-- The position in `t` of the first destroy call that targets `r`. -/
def destroyPos (r : Res) : List Cmd → Option Nat
  | [] => none
  | c :: t => if c.destroys = some r then some 0 else (destroyPos r t).map (fun i => i + 1)

/-- Whether `t` destroys both `a` and `b`, and `a` first. -/
def destroyedBefore (a b : Res) (t : List Cmd) : Bool :=
  match destroyPos a t, destroyPos b t with
  | some i, some j => decide (i < j)
  | _, _ => false

/-- The binding sets bound by the `BindUniform` calls of `t`, in order. -/
def boundUniforms : List Cmd → List Handle
  | [] => []
  | Cmd.BindUniform u _ :: t => u :: boundUniforms t
  | _ :: t => boundUniforms t

/-- The dimensions of the most recent of the resize events `evs`, or `d` when there was
none. -/
def lastSize (evs : List ResizeEvent) (d : Int × Int) : Int × Int :=
  match evs.getLast? with
  | some ev => (ev.width, ev.height)
  | none => d

/-- The binding set created for the most recent of the resize events `evs`, or `d` when
there was none. -/
def lastUniform (evs : List ResizeEvent) (d : Handle) : Handle :=
  match evs.getLast? with
  | some ev => ev.newUniform
  | none => d

/-- The pipelines created by the calls `t`, in order: the returned handle and the
subpass the pipeline was created for. -/
def pipelineSubpasses : List Cmd → List (Handle × Nat)
  | [] => []
  | Cmd.CreatePipeline d h :: t => (h, d.subpass) :: pipelineSubpasses t
  | _ :: t => pipelineSubpasses t

/-- The binding sets and pipelines the application holds in state `s`, each with the
objects its description refers to, most recently created first; `a` is the backend
alignment used for the scene binding set. -/
def liveObjects (a : Nat) (s : AppState) : List (Res × List Res) :=
  [ (⟨ResKind.Uniform, s.screenQuadUniform⟩, (screenQuadUniformDesc s).refs),
    (⟨ResKind.Uniform, s.uniform⟩, (uniformDesc a s).refs),
    (⟨ResKind.Pipeline, s.screenQuadPipeline⟩, (screenQuadPipelineDesc s).refs),
    (⟨ResKind.Pipeline, s.pipeline⟩, (pipelineDesc s).refs) ]

/-- The backend gave different handles to the two binding sets, to the two layouts, to
the two pipelines, and to the shaders of different pipelines. -/
def InitEnv.distinctHandles (e : InitEnv) : Prop :=
  e.uniform ≠ e.screenQuadUniform ∧
  e.uniformLayout ≠ e.screenQuadUniformLayout ∧
  e.pipeline ≠ e.screenQuadPipeline ∧
  e.vertShader ≠ e.screenVertShader ∧ e.vertShader ≠ e.screenFragShader ∧
  e.fragShader ≠ e.screenVertShader ∧ e.fragShader ≠ e.screenFragShader

/-- The backend never returns, for a composite binding set created on resize, the handle
of the scene binding set `u`. -/
def freshUniforms (u : Handle) (its : List Iteration) : Prop :=
  ∀ it ∈ its, ∀ ev ∈ it.events, ev.newUniform ≠ u

/-- The resize events delivered during the iterations `its`, oldest first. -/
def allEvents : List Iteration → List ResizeEvent
  | [] => []
  | it :: rest => it.events ++ allEvents rest

/-- The dimensions of the most recent of the resize events `evs`, or `WIDTH` x `HEIGHT`
when there was none. -/
def currentSize (evs : List ResizeEvent) : Int × Int :=
  lastSize evs (WIDTH, HEIGHT)

/-- The composite binding set created for the most recent of the resize events `evs`, or
the one created by `Init` when there was none. -/
def currentComposite (e : InitEnv) (evs : List ResizeEvent) : Handle :=
  lastUniform evs e.screenQuadUniform

/-- An environment for `Init` in which the backend numbers its objects 1, 2, 3, ... in
creation order, the alignment is 256 and the texture decodes to a 2 x 2 image. -/
def sampleEnv : InitEnv :=
  { alignment := 256,
    readFile := fun path => path,
    decode := { pixels := some (List.replicate 16 255), texWidth := 2, texHeight := 2,
                texChannels := 3 },
    vertexBuffer := 1, indexBuffer := 2, uniformBuffer := 3,
    vertShader := 4, fragShader := 5, uniformLayout := 6, renderPass := 7, pipeline := 8,
    screenVertShader := 9, screenFragShader := 10, screenQuadUniformLayout := 11,
    screenQuadPipeline := 12, image := 13, sampler := 14, uniform := 15,
    screenQuadUniform := 16 }

/-- The environment `sampleEnv` with a failed decode: `stbi_load` returned a null pointer. -/
def nullDecodeEnv : InitEnv :=
  { sampleEnv with decode := { pixels := none, texWidth := 0, texHeight := 0, texChannels := 0 } }

/-- A successful frame at clock reading 1 with no event delivered. -/
def plainFrame : Iteration :=
  { events := [], beginFrame := true, time := 1 }

/-- A successful frame at clock reading 2 during which a 1024 x 768 resize event is
delivered; the backend returns handle 17 for the new composite binding set. -/
def resizeFrame : Iteration :=
  { events := [{ width := 1024, height := 768, newUniform := 17 }], beginFrame := true,
    time := 2 }

/-- An iteration in which `BeginFrame` returns false and no event is delivered. -/
def failedAcquire : Iteration :=
  { events := [], beginFrame := false, time := 0 }

/-! ## The render graph built by `CreateRenderPass` -/

/-- C5: for every current surface size, the description built by `CreateRenderPass` has
that width and height, exactly 3 attachments, 2 subpasses and 1 dependency; in index
order the attachments are the presentable surface (swapchain format, load Clear, store
Store), the HDR colour target (R16G16B16A16F, load Clear, store DontCare) and the
depth/stencil target (load Clear), each of the current size.  At startup the size is
800 x 600, and that is the size `Init` builds the render pass with. -/
theorem createRenderPass_attachments (s : AppState) (ret : Handle) (e : InitEnv) :
    (CreateRenderPass ret s).2 = [Cmd.CreateRenderPass (renderPassDescription s) ret] ∧
    (CreateRenderPass ret s).1.renderPass = ret ∧
    (renderPassDescription s).width = s.s_width ∧
    (renderPassDescription s).height = s.s_height ∧
    (renderPassDescription s).attachments.length = 3 ∧
    (renderPassDescription s).subpasses.length = 2 ∧
    (renderPassDescription s).dependencies.length = 1 ∧
    (renderPassDescription s).attachments.map (fun a => a.type) =
      [AttachmentType.Present, AttachmentType.Color, AttachmentType.DepthStencil] ∧
    (renderPassDescription s).attachments.map (fun a => a.format) =
      [Format.SWAPCHAIN, Format.R16G16B16A16F, Format.DEPTH_24UNORM_STENCIL_8INT] ∧
    (renderPassDescription s).attachments.map (fun a => a.loadAction) =
      [AttachmentLoadAction.Clear, AttachmentLoadAction.Clear, AttachmentLoadAction.Clear] ∧
    ((renderPassDescription s).attachments.take 2).map (fun a => a.storeAction) =
      [some AttachmentStoreAction.Store, some AttachmentStoreAction.DontCare] ∧
    (∀ a ∈ (renderPassDescription s).attachments,
      a.width = s.s_width ∧ a.height = s.s_height) ∧
    AppState.start.s_width = 800 ∧ AppState.start.s_height = 600 ∧
    Cmd.CreateRenderPass (renderPassDescription AppState.start) e.renderPass
      ∈ (Init e AppState.start).2 ∧
    (renderPassDescription AppState.start).width = 800 ∧
    (renderPassDescription AppState.start).height = 600 := by
  refine ⟨rfl, rfl, rfl, rfl, rfl, rfl, rfl, rfl, rfl, rfl, rfl, ?_, rfl, rfl, ?_, rfl, rfl⟩
  · intro a ha
    simp only [renderPassDescription, List.mem_cons, List.mem_singleton, List.not_mem_nil,
      or_false] at ha
    rcases ha with h | h | h <;> subst h <;> exact ⟨rfl, rfl⟩
  · simp [Init, CreateRenderPass, renderPassDescription]

/-- C6: the subpass list built by `CreateRenderPass` is, in order, subpass 0 with colour
attachments [1], no input attachment and depth/stencil attachment 2, then subpass 1 with
colour attachments [0], input attachments [1] and depth/stencil attachment 2.  Every
attachment index a subpass refers to is below the number of attachments, every colour
reference points at an attachment of type Present or Color, and every depth reference
points at the attachment of type DepthStencil, of which there is exactly one. -/
theorem createRenderPass_subpasses (s : AppState) :
    (renderPassDescription s).subpasses =
      [ { pipelineType := PipelineType.Graphics, colorAttachments := [1],
          inputAttachments := [], depthStencilAttachment := some 2 },
        { pipelineType := PipelineType.Graphics, colorAttachments := [0],
          inputAttachments := [1], depthStencilAttachment := some 2 } ] ∧
    (∀ sp ∈ (renderPassDescription s).subpasses,
      (∀ i ∈ sp.colorAttachments, i < (renderPassDescription s).attachments.length) ∧
      (∀ i ∈ sp.inputAttachments, i < (renderPassDescription s).attachments.length) ∧
      (∀ i ∈ sp.depthStencilAttachment, i < (renderPassDescription s).attachments.length) ∧
      (∀ i ∈ sp.colorAttachments,
        ((renderPassDescription s).attachments.get? i).map (fun a => a.type)
            = some AttachmentType.Present ∨
        ((renderPassDescription s).attachments.get? i).map (fun a => a.type)
            = some AttachmentType.Color) ∧
      (∀ i ∈ sp.depthStencilAttachment,
        ((renderPassDescription s).attachments.get? i).map (fun a => a.type)
            = some AttachmentType.DepthStencil)) ∧
    ((renderPassDescription s).attachments.filter
      (fun a => decide (a.type = AttachmentType.DepthStencil))).length = 1 := by
  refine ⟨rfl, ?_, rfl⟩
  intro sp hsp
  simp only [renderPassDescription, List.mem_cons, List.mem_singleton, List.not_mem_nil,
    or_false] at hsp
  rcases hsp with h | h <;> subst h <;>
    simp [renderPassDescription]

/-- C7: the description built by `CreateRenderPass` has exactly one dependency, from
subpass 0 (stage ColorAttachmentOutput, access ColorAttachmentWrite) to subpass 1 (stage
FragmentShader, access ShaderRead).  Its source index is below its destination index,
both are valid subpass indices, and the attachment the destination subpass takes as
input, attachment 1, is the one the source subpass writes as colour. -/
theorem createRenderPass_dependency (s : AppState) :
    (renderPassDescription s).dependencies =
      [ { srcSubpass := 0, dstSubpass := 1,
          srcStage := PipelineStage.ColorAttachmentOutput,
          dstStage := PipelineStage.FragmentShader,
          srcAccess := Access.ColorAttachmentWrite,
          dstAccess := Access.ShaderRead } ] ∧
    (∀ d ∈ (renderPassDescription s).dependencies,
      d.srcSubpass < d.dstSubpass ∧
      d.srcSubpass < (renderPassDescription s).subpasses.length ∧
      d.dstSubpass < (renderPassDescription s).subpasses.length ∧
      ((renderPassDescription s).subpasses.get? d.srcSubpass).map
          (fun sp => sp.colorAttachments) = some [1] ∧
      ((renderPassDescription s).subpasses.get? d.dstSubpass).map
          (fun sp => sp.inputAttachments) = some [1]) := by
  refine ⟨rfl, ?_⟩
  intro d hd
  simp only [renderPassDescription, List.mem_singleton] at hd
  subst hd
  simp [renderPassDescription]

/-! ## The uniform buffer layout -/

/-- For a positive alignment, `UniformAlign a n` is the least multiple of `a` that is at
least `n`: it is a multiple of `a`, at least `n`, and less than `n + a`. -/
theorem UniformAlign_spec (a n : Nat) (ha : 0 < a) :
    a ∣ UniformAlign a n ∧ n ≤ UniformAlign a n ∧ UniformAlign a n < n + a := by
  unfold UniformAlign
  have h1 := Nat.div_add_mod (n + a - 1) a
  have h2 := Nat.mod_lt (n + a - 1) ha
  have h3 : (n + a - 1) / a * a = a * ((n + a - 1) / a) := Nat.mul_comm _ _
  refine ⟨Dvd.intro_left _ rfl, ?_, ?_⟩ <;> omega

/-- C2: for every positive backend alignment, the uniform buffer created in `Init` has
size `UniformAlign(192) + UniformAlign(4)`, where 192 is the size of three 4x4 float
matrices and 4 the size of a float; the scene binding set places region 1 at offset 0
with size 192 and region 2 at offset `UniformAlign(192)` with size 4, both in that
buffer.  Region 2 starts at the aligned size of region 1, ends within the buffer, and
does not overlap region 1. -/
theorem init_uniform_regions (e : InitEnv) (s0 : AppState) (ha : 0 < e.alignment) :
    sizeofUniformBufferObject = 192 ∧ sizeofFloat = 4 ∧
    (∀ n, e.alignment ∣ UniformAlign e.alignment n ∧ n ≤ UniformAlign e.alignment n ∧
      UniformAlign e.alignment n < n + e.alignment) ∧
    Cmd.CreateBuffer
        { size := UniformAlign e.alignment 192 + UniformAlign e.alignment 4,
          storageMode := BufferStorageMode.Dynamic, usage := BufferUsage.UniformBuffer }
        e.uniformBuffer ∈ (Init e s0).2 ∧
    (∃ d, Cmd.CreateUniform d e.uniform ∈ (Init e s0).2 ∧
      d.attributes =
        [ UniformAttribute.Buffer 0 e.uniformBuffer 0 192,
          UniformAttribute.Buffer 1 e.uniformBuffer (UniformAlign e.alignment 192) 4,
          UniformAttribute.Image 2 e.image e.sampler ]) ∧
    (Init e s0).1.uniformBuffer = e.uniformBuffer ∧
    (Init e s0).1.uniform = e.uniform ∧
    UniformAlign e.alignment 192 + 4
      ≤ UniformAlign e.alignment 192 + UniformAlign e.alignment 4 ∧
    0 + 192 ≤ UniformAlign e.alignment 192 := by
  have h192 := (UniformAlign_spec e.alignment 192 ha).2.1
  have h4 := (UniformAlign_spec e.alignment 4 ha).2.1
  refine ⟨rfl, rfl, fun n => UniformAlign_spec e.alignment n ha, ?_, ?_, rfl, rfl, ?_, ?_⟩
  · simp [Init, uniformBufferDescription, sizeofUniformBufferObject, sizeofMat4, sizeofFloat]
  · refine ⟨uniformDesc e.alignment
      { (LoadTexture e.decode e.image
          { (CreateRenderPass e.renderPass
              { s0 with vertexBuffer := e.vertexBuffer, indexBuffer := e.indexBuffer,
                        uniformBuffer := e.uniformBuffer, vertShader := e.vertShader,
                        fragShader := e.fragShader,
                        uniformLayout := e.uniformLayout }).1 with
            pipeline := e.pipeline, screenVertShader := e.screenVertShader,
            screenFragShader := e.screenFragShader,
            screenQuadUniformLayout := e.screenQuadUniformLayout,
            screenQuadPipeline := e.screenQuadPipeline }).1 with
        sampler := e.sampler }, ?_, ?_⟩
    · simp [Init]
    · simp [uniformDesc, LoadTexture, CreateRenderPass, sizeofUniformBufferObject, sizeofMat4,
        sizeofFloat]
  · omega
  · omega

/-- C2 at the sample environment (alignment 256). -/
theorem init_uniform_regions_witness :
    0 < sampleEnv.alignment ∧
    Cmd.CreateBuffer
        { size := UniformAlign sampleEnv.alignment 192 + UniformAlign sampleEnv.alignment 4,
          storageMode := BufferStorageMode.Dynamic, usage := BufferUsage.UniformBuffer }
        sampleEnv.uniformBuffer ∈ (Init sampleEnv AppState.start).2 ∧
    UniformAlign sampleEnv.alignment 192 = 256 ∧
    UniformAlign sampleEnv.alignment 192 + UniformAlign sampleEnv.alignment 4 = 512 :=
  ⟨by decide, (init_uniform_regions sampleEnv AppState.start (by decide)).2.2.2.1,
   by decide, by decide⟩

/-! ## The resize callback -/

/-- C3: for every surface-size-changed event with dimensions (w, h), the callback issues
exactly `Resize(w, h)`, `ResizeRenderPass(renderPass, w, h)`, `DestroyUniform` of the
composite binding set held before the event and `CreateUniform` of a binding set whose
slot 0 samples attachment 1 of `renderPass`, in this order.  Afterwards the application
holds the handle returned by that `CreateUniform` (a live binding set, whatever was live
before), the render pass handle is unchanged, and the only binding set bound in pass 1
of the next frame is the new one. -/
theorem resize_rebuilds_composite (ev : ResizeEvent) (s : AppState) (live : List Handle)
    (time : Time) :
    (framebufferResizeCallback ev s).2 =
      [ Cmd.Resize ev.width ev.height,
        Cmd.ResizeRenderPass s.renderPass ev.width ev.height,
        Cmd.DestroyUniform s.screenQuadUniform,
        Cmd.CreateUniform
          { layout := s.screenQuadUniformLayout,
            storageMode := UniformStorageMode.Dynamic,
            attributes := [UniformAttribute.SampledAttachment 0 s.renderPass 1 s.sampler] }
          ev.newUniform ] ∧
    (framebufferResizeCallback ev s).1 =
      { s with s_width := ev.width, s_height := ev.height,
               screenQuadUniform := ev.newUniform } ∧
    (framebufferResizeCallback ev s).1.screenQuadUniform = ev.newUniform ∧
    (framebufferResizeCallback ev s).1.renderPass = s.renderPass ∧
    liveUniforms (framebufferResizeCallback ev s).2 live =
      ev.newUniform :: live.filter (fun x => x ≠ s.screenQuadUniform) ∧
    (framebufferResizeCallback ev s).1.screenQuadUniform
      ∈ liveUniforms (framebufferResizeCallback ev s).2 live ∧
    boundUniforms (afterNextRenderPass
      (frameCommands time (framebufferResizeCallback ev s).1)) = [ev.newUniform] := by
  refine ⟨rfl, rfl, rfl, rfl, rfl, ?_, rfl⟩
  show ev.newUniform ∈ ev.newUniform :: live.filter (fun x => x ≠ s.screenQuadUniform)
  exact List.mem_cons_self _ _

/-! ## The frame loop -/

/-- Handling the events of one poll issues no frame-recording call. -/
theorem pollEvents_no_frameWork (evs : List ResizeEvent) (s : AppState) :
    ∀ c ∈ (pollEvents evs s).2,
      c.isFrameWork = false ∧ c.isDraw = false ∧ c.isNextRenderPass = false ∧
      c.isUniformUpdate = false := by
  induction evs generalizing s with
  | nil => intro c hc; simp [pollEvents] at hc
  | cons ev rest ih =>
    intro c hc
    simp only [pollEvents, List.mem_append] at hc
    rcases hc with hc | hc
    · simp only [framebufferResizeCallback, List.mem_cons, List.mem_singleton,
        List.not_mem_nil, or_false] at hc
      rcases hc with h | h | h | h <;> subst h <;> exact ⟨rfl, rfl, rfl, rfl⟩
    · exact ih _ c hc

/-- The most recent size once an event has been delivered. -/
theorem lastSize_cons (ev : ResizeEvent) (rest : List ResizeEvent) (d : Int × Int) :
    lastSize (ev :: rest) d = lastSize rest (ev.width, ev.height) := by
  cases rest with
  | nil => rfl
  | cons ev2 rest2 =>
    unfold lastSize
    rw [List.getLast?_cons_cons]
    cases hl : (ev2 :: rest2).getLast? with
    | none => simp at hl
    | some x => rfl

/-- The most recent composite binding set once an event has been delivered. -/
theorem lastUniform_cons (ev : ResizeEvent) (rest : List ResizeEvent) (d : Handle) :
    lastUniform (ev :: rest) d = lastUniform rest ev.newUniform := by
  cases rest with
  | nil => rfl
  | cons ev2 rest2 =>
    unfold lastUniform
    rw [List.getLast?_cons_cons]
    cases hl : (ev2 :: rest2).getLast? with
    | none => simp at hl
    | some x => rfl

/-- The state after one poll: size and composite binding set follow the last event. -/
theorem pollEvents_state (evs : List ResizeEvent) (s : AppState) :
    (pollEvents evs s).1 =
      { s with s_width := (lastSize evs (s.s_width, s.s_height)).1,
               s_height := (lastSize evs (s.s_width, s.s_height)).2,
               screenQuadUniform := lastUniform evs s.screenQuadUniform } := by
  induction evs generalizing s with
  | nil => rfl
  | cons ev rest ih =>
    simp only [pollEvents]
    rw [ih, lastSize_cons, lastUniform_cons]
    rfl

/-- C1: for every loop iteration in which `BeginFrame` returns true, the recorded calls
contain exactly one draw before `NextRenderPass` and exactly one after it: first
`DrawIndexed` with index count `indices.size()` = 12, instance count 1, first index 0,
then a non-indexed `Draw` of 3 vertices, instance count 1.  The frame has one
`NextRenderPass` and no other draw call. -/
theorem frame_draw_calls (it : Iteration) (s : AppState) (h : it.beginFrame = true) :
    indices.length = 12 ∧
    (beforeNextRenderPass (loopBody it s).2).filter Cmd.isDraw
      = [Cmd.DrawIndexed indices.length 1 0] ∧
    (afterNextRenderPass (loopBody it s).2).filter Cmd.isDraw = [Cmd.Draw 3 1 0 0] ∧
    (loopBody it s).2.filter Cmd.isDraw = [Cmd.DrawIndexed 12 1 0, Cmd.Draw 3 1 0 0] ∧
    ((loopBody it s).2.filter Cmd.isNextRenderPass).length = 1 := by
  have hp := pollEvents_no_frameWork it.events s
  have hnext : ∀ c ∈ (pollEvents it.events s).2,
      (fun c : Cmd => !c.isNextRenderPass) c = true := by
    intro c hc; simp [(hp c hc).2.2.1]
  have hd : (pollEvents it.events s).2.filter Cmd.isDraw = [] := by
    rw [List.filter_eq_nil_iff]; intro c hc; simp [(hp c hc).2.1]
  have hn : (pollEvents it.events s).2.filter Cmd.isNextRenderPass = [] := by
    rw [List.filter_eq_nil_iff]; intro c hc; simp [(hp c hc).2.2.1]
  simp only [loopBody, h, if_true, beforeNextRenderPass, afterNextRenderPass,
    List.takeWhile_append_of_pos hnext, List.dropWhile_append_of_pos hnext,
    List.filter_append, hd, hn, List.nil_append]
  exact ⟨rfl, rfl, rfl, rfl, rfl⟩

/-- C1 at a plain frame following `Init` in the sample environment. -/
theorem frame_draw_calls_witness :
    plainFrame.beginFrame = true ∧
    (loopBody plainFrame (Init sampleEnv AppState.start).1).2.filter Cmd.isDraw
      = [Cmd.DrawIndexed 12 1 0, Cmd.Draw 3 1 0 0] :=
  ⟨rfl, (frame_draw_calls plainFrame (Init sampleEnv AppState.start).1 rfl).2.2.2.1⟩

/-- Running the loop over `a ++ b` is running it over `a`, then over `b`. -/
theorem MainLoop_append (a b : List Iteration) (s : AppState) :
    MainLoop (a ++ b) s =
      ((MainLoop b (MainLoop a s).1).1, (MainLoop a s).2 ++ (MainLoop b (MainLoop a s).1).2) := by
  induction a generalizing s with
  | nil => rfl
  | cons it rest ih =>
    have h := ih (loopBody it s).1
    show ((MainLoop (rest ++ b) (loopBody it s).1).1,
        (loopBody it s).2 ++ (MainLoop (rest ++ b) (loopBody it s).1).2) =
      ((MainLoop b (MainLoop rest (loopBody it s).1).1).1,
        ((loopBody it s).2 ++ (MainLoop rest (loopBody it s).1).2) ++
          (MainLoop b (MainLoop rest (loopBody it s).1).1).2)
    rw [h, List.append_assoc]

/-- Iterations whose acquire fails and that deliver no event record only the failed
`BeginFrame` and leave the state alone. -/
theorem MainLoop_failed (fails : List Iteration) (s : AppState)
    (hf : ∀ i ∈ fails, i.beginFrame = false ∧ i.events = []) :
    MainLoop fails s = (s, List.replicate fails.length (Cmd.BeginFrame false)) := by
  induction fails with
  | nil => rfl
  | cons i rest ih =>
    have hi := hf i (List.mem_cons_self _ _)
    have hr := ih (fun j hj => hf j (List.mem_cons_of_mem _ hj))
    simp [MainLoop, loopBody, hi.1, hi.2, pollEvents, hr, List.replicate_succ]

/-- C4: for every run of n consecutive loop iterations in which `BeginFrame` returns
false and no resize event is delivered, `MainLoop` issues nothing but the n failed
`BeginFrame` calls (no render-pass, pipeline, bind, uniform-update, viewport/scissor,
draw, subpass-advance, end-render-pass or end-frame call) and leaves every handle and the
stored surface dimensions unchanged; the first later iteration in which `BeginFrame`
returns true records the same frame as it would have without the failed acquires. -/
theorem failed_acquires_are_skipped (fails : List Iteration) (it : Iteration) (s : AppState)
    (hf : ∀ i ∈ fails, i.beginFrame = false ∧ i.events = [])
    (ht : it.beginFrame = true) :
    (MainLoop fails s).1 = s ∧
    (MainLoop fails s).2 = List.replicate fails.length (Cmd.BeginFrame false) ∧
    (∀ c ∈ (MainLoop fails s).2, c.isFrameWork = false) ∧
    (MainLoop (fails ++ [it]) s).1 = (MainLoop [it] s).1 ∧
    (MainLoop (fails ++ [it]) s).2 = (MainLoop fails s).2 ++ (MainLoop [it] s).2 ∧
    (MainLoop [it] s).2 =
      (pollEvents it.events s).2 ++
        Cmd.BeginFrame true :: frameCommands it.time (pollEvents it.events s).1 ∧
    (MainLoop (fails ++ [it]) s).2.filter Cmd.isFrameWork =
      frameCommands it.time (pollEvents it.events s).1 ∧
    (MainLoop [it] s).2.filter Cmd.isFrameWork =
      frameCommands it.time (pollEvents it.events s).1 := by
  have hm := MainLoop_failed fails s hf
  have hone : (MainLoop [it] s).2 =
      (pollEvents it.events s).2 ++
        Cmd.BeginFrame true :: frameCommands it.time (pollEvents it.events s).1 := by
    simp [MainLoop, loopBody, ht]
  have hpoll : (pollEvents it.events s).2.filter Cmd.isFrameWork = [] := by
    rw [List.filter_eq_nil_iff]
    intro c hc
    simp [(pollEvents_no_frameWork it.events s c hc).1]
  have hrep : (List.replicate fails.length (Cmd.BeginFrame false)).filter Cmd.isFrameWork
      = [] := by
    rw [List.filter_eq_nil_iff]
    intro c hc
    rw [(List.mem_replicate.mp hc).2]
    simp [Cmd.isFrameWork]
  have hfr : (Cmd.BeginFrame true :: frameCommands it.time (pollEvents it.events s).1).filter
      Cmd.isFrameWork = frameCommands it.time (pollEvents it.events s).1 := rfl
  have hsingle : (MainLoop [it] s).2.filter Cmd.isFrameWork =
      frameCommands it.time (pollEvents it.events s).1 := by
    rw [hone, List.filter_append, hpoll, hfr, List.nil_append]
  have happ := MainLoop_append fails [it] s
  rw [hm] at happ
  refine ⟨by rw [hm], by rw [hm], ?_, by rw [happ], by rw [happ, hm], hone, ?_, hsingle⟩
  · intro c hc
    rw [hm] at hc
    rw [(List.mem_replicate.mp hc).2]
    rfl
  · rw [happ]
    show (List.replicate fails.length (Cmd.BeginFrame false) ++ (MainLoop [it] s).2).filter
      Cmd.isFrameWork = _
    rw [List.filter_append, hrep, hsingle, List.nil_append]

/-- C4 at three failed acquires followed by a plain frame, after `Init` in the sample
environment. -/
theorem failed_acquires_are_skipped_witness :
    (∀ i ∈ [failedAcquire, failedAcquire, failedAcquire],
      i.beginFrame = false ∧ i.events = []) ∧
    plainFrame.beginFrame = true ∧
    (MainLoop [failedAcquire, failedAcquire, failedAcquire]
      (Init sampleEnv AppState.start).1).2
      = List.replicate 3 (Cmd.BeginFrame false) :=
  ⟨by decide, rfl,
   (failed_acquires_are_skipped [failedAcquire, failedAcquire, failedAcquire] plainFrame
      (Init sampleEnv AppState.start).1 (by decide) rfl).2.1⟩

/-- The most recent size over two runs of events. -/
theorem lastSize_append (a b : List ResizeEvent) (d : Int × Int) :
    lastSize (a ++ b) d = lastSize b (lastSize a d) := by
  induction a generalizing d with
  | nil => rfl
  | cons ev rest ih => rw [List.cons_append, lastSize_cons, lastSize_cons, ih]

/-- The most recent composite binding set over two runs of events. -/
theorem lastUniform_append (a b : List ResizeEvent) (d : Handle) :
    lastUniform (a ++ b) d = lastUniform b (lastUniform a d) := by
  induction a generalizing d with
  | nil => rfl
  | cons ev rest ih => rw [List.cons_append, lastUniform_cons, lastUniform_cons, ih]

/-- The state after one pass through the loop body is the state after its poll. -/
theorem loopBody_state (it : Iteration) (s : AppState) :
    (loopBody it s).1 = (pollEvents it.events s).1 := by
  unfold loopBody
  cases it.beginFrame <;> rfl

/-- The state after the loop: only the stored size and the composite binding set change,
and they follow the last resize event. -/
theorem MainLoop_state (its : List Iteration) (s : AppState) :
    (MainLoop its s).1 =
      { s with s_width := (lastSize (allEvents its) (s.s_width, s.s_height)).1,
               s_height := (lastSize (allEvents its) (s.s_width, s.s_height)).2,
               screenQuadUniform := lastUniform (allEvents its) s.screenQuadUniform } := by
  induction its generalizing s with
  | nil => rfl
  | cons it rest ih =>
    show (MainLoop rest (loopBody it s).1).1 = _
    rw [ih, loopBody_state, pollEvents_state]
    simp only [allEvents, lastSize_append, lastUniform_append]

/-- The statics after `Init`: the start-up size and the handles the backend returned. -/
theorem Init_state (e : InitEnv) :
    (Init e AppState.start).1 =
      { s_width := 800, s_height := 600,
        vertShader := e.vertShader, fragShader := e.fragShader,
        screenVertShader := e.screenVertShader, screenFragShader := e.screenFragShader,
        pipeline := e.pipeline, vertexBuffer := e.vertexBuffer,
        indexBuffer := e.indexBuffer, uniformBuffer := e.uniformBuffer,
        uniformLayout := e.uniformLayout, uniform := e.uniform, image := e.image,
        sampler := e.sampler, renderPass := e.renderPass,
        screenQuadUniformLayout := e.screenQuadUniformLayout,
        screenQuadUniform := e.screenQuadUniform,
        screenQuadPipeline := e.screenQuadPipeline } :=
  rfl

/-- C10: in every loop iteration in which `BeginFrame` returns true, after `Init` and any
earlier iterations, the calls recorded once the poll is done are, in this order:
`BeginFrame`; `BeginRenderPass` over (0, 0, current width, current height);
`ApplyPipeline` of the geometry pipeline (created for subpass 0); the updates of uniform
bindings 0 (transforms) and 1 (time); the binds of index buffer, vertex buffer and scene
binding set; viewport and scissor (0, 0, current width, current height); `DrawIndexed`;
one `NextRenderPass`; `ApplyPipeline` of the composite pipeline (created for subpass 1);
the bind of the composite binding set; `Draw`; `EndRenderPass`; `EndFrame`.  Both
uniform updates precede the first draw call and there is no other.  The current width
and height are those of the most recent resize event, or 800 x 600 if there was none. -/
theorem frame_call_sequence (e : InitEnv) (its : List Iteration) (it : Iteration)
    (h : it.beginFrame = true) :
    (loopBody it (MainLoop its (Init e AppState.start).1).1).2 =
      (pollEvents it.events (MainLoop its (Init e AppState.start).1).1).2 ++
      [ Cmd.BeginFrame true,
        Cmd.BeginRenderPass e.renderPass 0 0
          (currentSize (allEvents its ++ it.events)).1
          (currentSize (allEvents its ++ it.events)).2,
        Cmd.ApplyPipeline e.pipeline,
        Cmd.UpdateUniformBuffer e.uniform 0
          (UniformData.ubo
            { model := Mat4.rotate it.time, view := Mat4.lookAt,
              proj := Mat4.perspective (currentSize (allEvents its ++ it.events)).1
                        (currentSize (allEvents its ++ it.events)).2 }),
        Cmd.UpdateUniformBuffer e.uniform 1 (UniformData.time it.time),
        Cmd.BindIndexBuffer e.indexBuffer 0 IndexType.UInt16,
        Cmd.BindVertexBuffer e.vertexBuffer 0,
        Cmd.BindUniform e.uniform 0,
        Cmd.SetViewport 0 0 (currentSize (allEvents its ++ it.events)).1
          (currentSize (allEvents its ++ it.events)).2,
        Cmd.SetScissor 0 0 (currentSize (allEvents its ++ it.events)).1
          (currentSize (allEvents its ++ it.events)).2,
        Cmd.DrawIndexed 12 1 0,
        Cmd.NextRenderPass,
        Cmd.ApplyPipeline e.screenQuadPipeline,
        Cmd.BindUniform (currentComposite e (allEvents its ++ it.events)) 0,
        Cmd.Draw 3 1 0 0,
        Cmd.EndRenderPass,
        Cmd.EndFrame ] ∧
    (∀ c ∈ (pollEvents it.events (MainLoop its (Init e AppState.start).1).1).2,
      c.isFrameWork = false) ∧
    pipelineSubpasses (Init e AppState.start).2
      = [(e.pipeline, 0), (e.screenQuadPipeline, 1)] ∧
    (beforeFirstDraw (loopBody it (MainLoop its (Init e AppState.start).1).1).2).filter
        Cmd.isUniformUpdate =
      (loopBody it (MainLoop its (Init e AppState.start).1).1).2.filter
        Cmd.isUniformUpdate ∧
    ((loopBody it (MainLoop its (Init e AppState.start).1).1).2.filter
        Cmd.isUniformUpdate).length = 2 ∧
    currentSize [] = (800, 600) ∧
    (∀ (evs : List ResizeEvent) (ev : ResizeEvent),
      currentSize (evs ++ [ev]) = (ev.width, ev.height)) := by
  have hp := pollEvents_no_frameWork it.events (MainLoop its (Init e AppState.start).1).1
  have hnd : ∀ c ∈ (pollEvents it.events (MainLoop its (Init e AppState.start).1).1).2,
      (fun c : Cmd => !c.isDraw) c = true := by
    intro c hc; simp [(hp c hc).2.1]
  have hu : (pollEvents it.events (MainLoop its (Init e AppState.start).1).1).2.filter
      Cmd.isUniformUpdate = [] := by
    rw [List.filter_eq_nil_iff]; intro c hc; simp [(hp c hc).2.2.2]
  have hst : (pollEvents it.events (MainLoop its (Init e AppState.start).1).1).1 =
      { (Init e AppState.start).1 with
        s_width := (currentSize (allEvents its ++ it.events)).1,
        s_height := (currentSize (allEvents its ++ it.events)).2,
        screenQuadUniform := currentComposite e (allEvents its ++ it.events) } := by
    rw [pollEvents_state, MainLoop_state]
    simp only [currentSize, currentComposite, lastSize_append, lastUniform_append]
    rfl
  have hbody : (loopBody it (MainLoop its (Init e AppState.start).1).1).2 =
      (pollEvents it.events (MainLoop its (Init e AppState.start).1).1).2 ++
        Cmd.BeginFrame true :: frameCommands it.time
          (pollEvents it.events (MainLoop its (Init e AppState.start).1).1).1 := by
    simp [loopBody, h]
  refine ⟨?_, fun c hc => (hp c hc).1, rfl, ?_, ?_, rfl, ?_⟩
  · rw [hbody, hst]
    rfl
  · rw [hbody]
    simp only [beforeFirstDraw, List.takeWhile_append_of_pos hnd, List.filter_append, hu,
      List.nil_append]
    rfl
  · rw [hbody, List.filter_append, hu]
    rfl
  · intro evs ev
    simp [currentSize, lastSize, List.getLast?_concat]

/-- C10 at a frame during which a 1024 x 768 resize is delivered, after `Init` in the
sample environment and one plain frame. -/
theorem frame_call_sequence_witness :
    resizeFrame.beginFrame = true ∧
    currentSize (allEvents [plainFrame] ++ resizeFrame.events) = (1024, 768) ∧
    currentComposite sampleEnv (allEvents [plainFrame] ++ resizeFrame.events) = 17 ∧
    pipelineSubpasses (Init sampleEnv AppState.start).2 = [(8, 0), (12, 1)] :=
  ⟨rfl, by decide, by decide,
   (frame_call_sequence sampleEnv [plainFrame] resizeFrame rfl).2.2.1⟩

/-! ## Texture loading -/

/-- C9 fails on the code: with a null pixel buffer from the decoder, `LoadTexture` still
issues `CreateImage` and `UpdateImageMemory` (handing on the null pointer), `Init`
continues with the sampler and both binding sets, and `Run` records a frame. -/
theorem loadTexture_null_decode_counterexample :
    nullDecodeEnv.decode.pixels = none ∧
    (LoadTexture nullDecodeEnv.decode nullDecodeEnv.image AppState.start).2 =
      [ Cmd.CreateImage
          { format := Format.R8G8B8A8, width := 0, height := 0, depth := 1,
            readOrWriteByCPU := false, usage := ImageUsage.SampledImage,
            type := ImageType.Image2D, sampleCount := ImageSampleCount.Sample1 } 13,
        Cmd.UpdateImageMemory 13 none 0 ] ∧
    ((Init nullDecodeEnv AppState.start).2.drop 15).take 3 =
      [ Cmd.CreateImage
          { format := Format.R8G8B8A8, width := 0, height := 0, depth := 1,
            readOrWriteByCPU := false, usage := ImageUsage.SampledImage,
            type := ImageType.Image2D, sampleCount := ImageSampleCount.Sample1 } 13,
        Cmd.UpdateImageMemory 13 none 0,
        Cmd.CreateSampler samplerDesc 14 ] ∧
    ((Init nullDecodeEnv AppState.start).2.drop 18).map (fun c => c.creates.map (fun o => o.1))
      = [some ⟨ResKind.Uniform, 15⟩, some ⟨ResKind.Uniform, 16⟩] ∧
    (Run nullDecodeEnv [plainFrame]).2.filter Cmd.isDraw
      = [Cmd.DrawIndexed 12 1 0, Cmd.Draw 3 1 0 0] := by
  refine ⟨rfl, ?_, ?_, ?_, ?_⟩
  · decide
  · decide
  · decide
  · decide

/-- C9 as amended: `LoadTexture` has no check of the decode result.  Whatever the decoder
returned, a null pixel buffer included, it issues `CreateImage` and then
`UpdateImageMemory` with the returned pointer; `Init` goes on to create the sampler and
the two binding sets, and `Run` goes on to the frame loop and to `CleanUp`. -/
theorem loadTexture_unchecked (e : InitEnv) (s : AppState) (its : List Iteration) :
    (LoadTexture e.decode e.image s).2 =
      [ Cmd.CreateImage (imageDescription e.decode) e.image,
        Cmd.UpdateImageMemory e.image e.decode.pixels
          (mulSizeT (mulSizeT (mulSizeT 1 (toSizeT e.decode.texWidth))
            (toSizeT e.decode.texHeight)) 4) ] ∧
    (LoadTexture e.decode e.image s).1 = { s with image := e.image } ∧
    (Init e AppState.start).2.length = 20 ∧
    (Init e AppState.start).2.drop 15 =
      (LoadTexture e.decode e.image s).2 ++
        [ Cmd.CreateSampler samplerDesc e.sampler,
          Cmd.CreateUniform (uniformDesc e.alignment (Init e AppState.start).1) e.uniform,
          Cmd.CreateUniform (screenQuadUniformDesc (Init e AppState.start).1)
            e.screenQuadUniform ] ∧
    (Run e its).2 =
      (Init e AppState.start).2 ++ (MainLoop its (Init e AppState.start).1).2 ++
        CleanUp (MainLoop its (Init e AppState.start).1).1 := by
  refine ⟨rfl, rfl, rfl, ?_, rfl⟩
  simp [Init, LoadTexture, CreateRenderPass, uniformDesc, screenQuadUniformDesc]

/-! ## Shutdown order -/

/-- Replaying `a ++ b` is replaying `a`, then `b`. -/
theorem liveAfter_append (live : List (Res × List Res)) (a b : List Cmd) :
    liveAfter live (a ++ b) = liveAfter (liveAfter live a) b := by
  induction a generalizing live with
  | nil => rfl
  | cons c t ih => exact ih (liveStep live c)

/-- The dangling destroys of `a ++ b` are those of `a`, then those of `b` replayed from
what is live after `a`. -/
theorem danglingDestroys_append (live : List (Res × List Res)) (a b : List Cmd) :
    danglingDestroys live (a ++ b) =
      danglingDestroys live a ++ danglingDestroys (liveAfter live a) b := by
  induction a generalizing live with
  | nil => rfl
  | cons c t ih =>
    show danglingAt live c ++ danglingDestroys (liveStep live c) (t ++ b) =
      (danglingAt live c ++ danglingDestroys (liveStep live c) t) ++
        danglingDestroys (liveAfter (liveStep live c) t) b
    rw [ih, List.append_assoc]

/-- After `Init` nothing dangles and the live objects are those the application holds. -/
theorem Init_live (e : InitEnv) :
    danglingDestroys [] (Init e AppState.start).2 = [] ∧
    liveAfter [] (Init e AppState.start).2
      = liveObjects e.alignment (Init e AppState.start).1 := by
  constructor <;>
    simp [Init, LoadTexture, CreateRenderPass, danglingDestroys, danglingAt, liveAfter,
      liveStep, Cmd.creates, Cmd.destroys, liveObjects, AppState.start, uniformDesc,
      screenQuadUniformDesc, pipelineDesc, screenQuadPipelineDesc]

/-- The resize callback retires the old composite binding set and makes the new one
live; nothing dangles. -/
theorem callback_live (a : Nat) (ev : ResizeEvent) (s : AppState)
    (hs : s.uniform ≠ s.screenQuadUniform) :
    danglingDestroys (liveObjects a s) (framebufferResizeCallback ev s).2 = [] ∧
    liveAfter (liveObjects a s) (framebufferResizeCallback ev s).2
      = liveObjects a (framebufferResizeCallback ev s).1 := by
  constructor
  · rfl
  · simp [framebufferResizeCallback, liveObjects, liveAfter, liveStep, Cmd.creates,
      Cmd.destroys, ResKind.isHolder, hs, screenQuadUniformDesc, uniformDesc,
      screenQuadPipelineDesc, pipelineDesc]

/-- Recording a frame creates and destroys nothing. -/
theorem frame_live (live : List (Res × List Res)) (b : Bool) (time : Time) (s : AppState) :
    danglingDestroys live (Cmd.BeginFrame b :: frameCommands time s) = [] ∧
    liveAfter live (Cmd.BeginFrame b :: frameCommands time s) = live :=
  ⟨rfl, rfl⟩

/-- Polling keeps the live objects in step with the state; nothing dangles. -/
theorem pollEvents_live (a : Nat) (evs : List ResizeEvent) (s : AppState)
    (hs : s.uniform ≠ s.screenQuadUniform) (hf : ∀ ev ∈ evs, ev.newUniform ≠ s.uniform) :
    danglingDestroys (liveObjects a s) (pollEvents evs s).2 = [] ∧
    liveAfter (liveObjects a s) (pollEvents evs s).2 = liveObjects a (pollEvents evs s).1 ∧
    (pollEvents evs s).1.uniform = s.uniform ∧
    (pollEvents evs s).1.uniform ≠ (pollEvents evs s).1.screenQuadUniform := by
  induction evs generalizing s with
  | nil => exact ⟨rfl, rfl, rfl, hs⟩
  | cons ev rest ih =>
    have hc := callback_live a ev s hs
    have hne : (framebufferResizeCallback ev s).1.uniform
        ≠ (framebufferResizeCallback ev s).1.screenQuadUniform := by
      show s.uniform ≠ ev.newUniform
      exact fun h => hf ev (List.mem_cons_self _ _) h.symm
    have hr := ih (framebufferResizeCallback ev s).1 hne
      (fun ev2 h2 => hf ev2 (List.mem_cons_of_mem _ h2))
    simp only [pollEvents]
    rw [danglingDestroys_append, liveAfter_append, hc.1, hc.2, hr.1, hr.2.1, hr.2.2.1]
    exact ⟨rfl, rfl, rfl, by rw [← hr.2.2.1]; exact hr.2.2.2⟩

/-- One pass through the loop body keeps the live objects in step with the state. -/
theorem loopBody_live (a : Nat) (it : Iteration) (s : AppState)
    (hs : s.uniform ≠ s.screenQuadUniform)
    (hf : ∀ ev ∈ it.events, ev.newUniform ≠ s.uniform) :
    danglingDestroys (liveObjects a s) (loopBody it s).2 = [] ∧
    liveAfter (liveObjects a s) (loopBody it s).2 = liveObjects a (loopBody it s).1 ∧
    (loopBody it s).1.uniform = s.uniform ∧
    (loopBody it s).1.uniform ≠ (loopBody it s).1.screenQuadUniform := by
  have hp := pollEvents_live a it.events s hs hf
  rw [loopBody_state]
  refine ⟨?_, ?_, hp.2.2.1, hp.2.2.2⟩
  · unfold loopBody
    cases it.beginFrame
    · simp only [Bool.false_eq_true, if_false]
      rw [danglingDestroys_append, hp.1, hp.2.1]
      rfl
    · simp only [if_true]
      rw [danglingDestroys_append, hp.1, hp.2.1, (frame_live _ _ _ _).1]
      rfl
  · unfold loopBody
    cases it.beginFrame
    · simp only [Bool.false_eq_true, if_false]
      rw [liveAfter_append, hp.2.1]
      rfl
    · simp only [if_true]
      rw [liveAfter_append, hp.2.1, (frame_live _ _ _ _).2]

/-- The whole loop keeps the live objects in step with the state; nothing dangles. -/
theorem MainLoop_live (a : Nat) (its : List Iteration) (s : AppState)
    (hs : s.uniform ≠ s.screenQuadUniform) (hf : freshUniforms s.uniform its) :
    danglingDestroys (liveObjects a s) (MainLoop its s).2 = [] ∧
    liveAfter (liveObjects a s) (MainLoop its s).2 = liveObjects a (MainLoop its s).1 ∧
    (MainLoop its s).1.uniform ≠ (MainLoop its s).1.screenQuadUniform := by
  induction its generalizing s with
  | nil => exact ⟨rfl, rfl, hs⟩
  | cons it rest ih =>
    have hb := loopBody_live a it s hs (hf it (List.mem_cons_self _ _))
    have hr := ih (loopBody it s).1 hb.2.2.2
      (by rw [hb.2.2.1]; exact fun j hj => hf j (List.mem_cons_of_mem _ hj))
    simp only [MainLoop]
    rw [danglingDestroys_append, liveAfter_append, hb.1, hb.2.1, hr.1, hr.2.1]
    exact ⟨rfl, rfl, hr.2.2⟩

/-- The destroy calls of `CleanUp` that hit an object still referred to: the render pass,
the sampler, the image and the two layouts, and no buffer or shader. -/
theorem CleanUp_dangling (a : Nat) (s : AppState)
    (hu : s.uniform ≠ s.screenQuadUniform) (hp : s.pipeline ≠ s.screenQuadPipeline)
    (h1 : s.vertShader ≠ s.screenVertShader) (h2 : s.vertShader ≠ s.screenFragShader)
    (h3 : s.fragShader ≠ s.screenVertShader) (h4 : s.fragShader ≠ s.screenFragShader) :
    danglingDestroys (liveObjects a s) (CleanUp s) =
      [ ⟨ResKind.RenderPass, s.renderPass⟩, ⟨ResKind.Sampler, s.sampler⟩,
        ⟨ResKind.Image, s.image⟩, ⟨ResKind.UniformLayout, s.uniformLayout⟩,
        ⟨ResKind.UniformLayout, s.screenQuadUniformLayout⟩ ] := by
  simp [CleanUp, liveObjects, danglingDestroys, danglingAt, liveStep, Cmd.creates,
    Cmd.destroys, ResKind.isHolder, referencedBy, screenQuadUniformDesc, uniformDesc,
    screenQuadPipelineDesc, pipelineDesc, UniformDescription.refs,
    GraphicsPipelineDescription.refs, attributeRefs, UniformAttribute.refs, hu, hp, h1, h2,
    h3, h4, Ne.symm hu, Ne.symm hp]

/-- The order of the destroy calls inside `CleanUp`: the render pass before both
pipelines, each binding set before its layout. -/
theorem CleanUp_order (s : AppState) (hl : s.uniformLayout ≠ s.screenQuadUniformLayout) :
    destroyedBefore ⟨ResKind.RenderPass, s.renderPass⟩ ⟨ResKind.Pipeline, s.pipeline⟩
      (CleanUp s) = true ∧
    destroyedBefore ⟨ResKind.RenderPass, s.renderPass⟩
      ⟨ResKind.Pipeline, s.screenQuadPipeline⟩ (CleanUp s) = true ∧
    destroyedBefore ⟨ResKind.Uniform, s.uniform⟩ ⟨ResKind.UniformLayout, s.uniformLayout⟩
      (CleanUp s) = true ∧
    destroyedBefore ⟨ResKind.Uniform, s.screenQuadUniform⟩
      ⟨ResKind.UniformLayout, s.screenQuadUniformLayout⟩ (CleanUp s) = true := by
  refine ⟨?_, ?_, ?_, ?_⟩
  · simp [CleanUp, destroyedBefore, destroyPos, Cmd.destroys]
  · by_cases hp : s.pipeline = s.screenQuadPipeline <;>
      simp [CleanUp, destroyedBefore, destroyPos, Cmd.destroys, hp]
  · simp [CleanUp, destroyedBefore, destroyPos, Cmd.destroys]
  · by_cases hu : s.uniform = s.screenQuadUniform <;>
      simp [CleanUp, destroyedBefore, destroyPos, Cmd.destroys, hu, hl, Ne.symm hl]

/-- C8 fails on the code: in the run of the sample environment with one frame, neither
pipeline is destroyed before the render pass, and five destroy calls (render pass 7,
sampler 14, image 13, layouts 6 and 11) target a handle that a binding set or pipeline
not yet destroyed still refers to. -/
theorem cleanUp_dependency_order_counterexample :
    destroyedBefore ⟨ResKind.Pipeline, 8⟩ ⟨ResKind.RenderPass, 7⟩
      (Run sampleEnv [plainFrame]).2 = false ∧
    destroyedBefore ⟨ResKind.Pipeline, 12⟩ ⟨ResKind.RenderPass, 7⟩
      (Run sampleEnv [plainFrame]).2 = false ∧
    danglingDestroys [] (Run sampleEnv [plainFrame]).2 =
      [ ⟨ResKind.RenderPass, 7⟩, ⟨ResKind.Sampler, 14⟩, ⟨ResKind.Image, 13⟩,
        ⟨ResKind.UniformLayout, 6⟩, ⟨ResKind.UniformLayout, 11⟩ ] ∧
    ¬ (destroyedBefore ⟨ResKind.Pipeline, 8⟩ ⟨ResKind.RenderPass, 7⟩
        (Run sampleEnv [plainFrame]).2 = true ∧
       destroyedBefore ⟨ResKind.Pipeline, 12⟩ ⟨ResKind.RenderPass, 7⟩
        (Run sampleEnv [plainFrame]).2 = true ∧
       destroyedBefore ⟨ResKind.Uniform, 15⟩ ⟨ResKind.UniformLayout, 6⟩
        (Run sampleEnv [plainFrame]).2 = true ∧
       destroyedBefore ⟨ResKind.Uniform, 16⟩ ⟨ResKind.UniformLayout, 11⟩
        (Run sampleEnv [plainFrame]).2 = true ∧
       danglingDestroys [] (Run sampleEnv [plainFrame]).2 = []) := by
  refine ⟨?_, ?_, ?_, ?_⟩
  · decide
  · decide
  · decide
  · decide

/-- C8 as amended: `CleanUp` destroys the render pass first, before both pipelines that
refer to it, and each binding set before its layout.  Over a whole run, provided the
backend hands out distinct handles, the destroy calls that target an object a binding
set or pipeline not yet destroyed still refers to are exactly those of the render pass,
the sampler, the image and the two layouts; no destroy call of a buffer or shader does. -/
theorem cleanUp_destroy_order (e : InitEnv) (its : List Iteration)
    (hd : e.distinctHandles) (hf : freshUniforms e.uniform its) :
    (Run e its).2 =
      (Init e AppState.start).2 ++ (MainLoop its (Init e AppState.start).1).2 ++
        CleanUp (Run e its).1 ∧
    (CleanUp (Run e its).1).head? = some (Cmd.DestroyRenderPass e.renderPass) ∧
    destroyedBefore ⟨ResKind.RenderPass, e.renderPass⟩ ⟨ResKind.Pipeline, e.pipeline⟩
      (CleanUp (Run e its).1) = true ∧
    destroyedBefore ⟨ResKind.RenderPass, e.renderPass⟩
      ⟨ResKind.Pipeline, e.screenQuadPipeline⟩ (CleanUp (Run e its).1) = true ∧
    destroyedBefore ⟨ResKind.Uniform, e.uniform⟩ ⟨ResKind.UniformLayout, e.uniformLayout⟩
      (CleanUp (Run e its).1) = true ∧
    destroyedBefore ⟨ResKind.Uniform, (Run e its).1.screenQuadUniform⟩
      ⟨ResKind.UniformLayout, e.screenQuadUniformLayout⟩ (CleanUp (Run e its).1) = true ∧
    danglingDestroys [] (Run e its).2 =
      [ ⟨ResKind.RenderPass, e.renderPass⟩, ⟨ResKind.Sampler, e.sampler⟩,
        ⟨ResKind.Image, e.image⟩, ⟨ResKind.UniformLayout, e.uniformLayout⟩,
        ⟨ResKind.UniformLayout, e.screenQuadUniformLayout⟩ ] := by
  obtain ⟨hu, hl, hp, h1, h2, h3, h4⟩ := hd
  have hrun : (Run e its).1 = (MainLoop its (Init e AppState.start).1).1 := rfl
  have hst := MainLoop_state its (Init e AppState.start).1
  have hlive := MainLoop_live e.alignment its (Init e AppState.start).1 hu hf
  have hinit := Init_live e
  have hord := CleanUp_order (Run e its).1
    (by rw [hrun, hst]; exact hl)
  have hdang := CleanUp_dangling e.alignment (Run e its).1
    (by rw [hrun]; exact hlive.2.2)
    (by rw [hrun, hst]; exact hp) (by rw [hrun, hst]; exact h1)
    (by rw [hrun, hst]; exact h2) (by rw [hrun, hst]; exact h3)
    (by rw [hrun, hst]; exact h4)
  have hfields : (Run e its).1.renderPass = e.renderPass ∧
      (Run e its).1.pipeline = e.pipeline ∧
      (Run e its).1.screenQuadPipeline = e.screenQuadPipeline ∧
      (Run e its).1.uniform = e.uniform ∧
      (Run e its).1.uniformLayout = e.uniformLayout ∧
      (Run e its).1.screenQuadUniformLayout = e.screenQuadUniformLayout ∧
      (Run e its).1.sampler = e.sampler ∧
      (Run e its).1.image = e.image := by
    rw [hrun, hst]
    exact ⟨rfl, rfl, rfl, rfl, rfl, rfl, rfl, rfl⟩
  obtain ⟨f1, f2, f3, f4, f5, f6, f7, f8⟩ := hfields
  rw [f1, f2, f3, f4, f5, f6] at hord
  rw [f1, f5, f6, f7, f8] at hdang
  have htrace : (Run e its).2 =
      (Init e AppState.start).2 ++ (MainLoop its (Init e AppState.start).1).2 ++
        CleanUp (Run e its).1 := rfl
  have hhead : (CleanUp (Run e its).1).head?
      = some (Cmd.DestroyRenderPass (Run e its).1.renderPass) := rfl
  refine ⟨htrace, by rw [hhead, f1], hord.1, hord.2.1, hord.2.2.1, hord.2.2.2, ?_⟩
  rw [htrace, danglingDestroys_append, danglingDestroys_append, liveAfter_append, hinit.1,
    hinit.2, hlive.1, hlive.2.1, ← hrun, hdang]
  rfl

/-- C8 as amended, at the run of the sample environment with one frame and a resize. -/
theorem cleanUp_destroy_order_witness :
    sampleEnv.distinctHandles ∧ freshUniforms sampleEnv.uniform [resizeFrame] ∧
    danglingDestroys [] (Run sampleEnv [resizeFrame]).2 =
      [ ⟨ResKind.RenderPass, sampleEnv.renderPass⟩, ⟨ResKind.Sampler, sampleEnv.sampler⟩,
        ⟨ResKind.Image, sampleEnv.image⟩, ⟨ResKind.UniformLayout, sampleEnv.uniformLayout⟩,
        ⟨ResKind.UniformLayout, sampleEnv.screenQuadUniformLayout⟩ ] :=
  ⟨by unfold InitEnv.distinctHandles; decide,
   by unfold freshUniforms; decide,
   (cleanUp_destroy_order sampleEnv [resizeFrame]
      (by unfold InitEnv.distinctHandles; decide)
      (by unfold freshUniforms; decide)).2.2.2.2.2.2⟩

end MoGfx
